import Mathlib

/-!
# Emilia hooks: identity resolution and session linking

A shallow embedding of the Node-RED function nodes under `src/backend/hooks`:

* `UpsertUserAndLead.js`  (`getOrCreateUser`, `upsertLead`, node body `upsertUserAndLead`)
* `StoreChatid.js`        (`storeChatIdUpsert`)
* `getUserDataFromRedBotUserID.js`
  (`getUserDataFromRedBotUserID`, `getLeadDataFromUserId`, node body `getUserDataNode`)

JavaScript values are JSON values (`JVal`).  An `async` function that may throw is a
function `Store → Except String α × Store`: the `String` is the `message` of the thrown
`Error`, the second component is the store after the calls made so far.

The Supabase client is outside the repository.  It is modelled by an in-memory store with
one list of rows per table and a schedule of injected faults, so that "every store state"
ranges over every table content and every pattern of failing calls.
-/

namespace Emilia

/-! ## JSON values -/

mutual
/-- A JavaScript value as it occurs in a message: a JSON value or `undefined`. -/
inductive JVal where
  | undefined
  | null
  | bool (b : Bool)
  | num (n : Int)
  | str (s : String)
  | arr (items : JItems)
  | obj (fields : JFields)
  deriving DecidableEq
/-- The elements of a JSON array. -/
inductive JItems where
  | nil
  | cons (v : JVal) (rest : JItems)
  deriving DecidableEq
/-- The properties of a JSON object, in order. -/
inductive JFields where
  | nil
  | cons (k : String) (v : JVal) (rest : JFields)
  deriving DecidableEq
end

/-- Build the properties of an object literal `{k1: v1, ...}`. -/
def JFields.ofList : List (String × JVal) → JFields
  | [] => .nil
  | (k, v) :: rest => .cons k v (JFields.ofList rest)

/-- Build a JSON array from a list of values. -/
def JItems.ofList : List JVal → JItems
  | [] => .nil
  | v :: rest => .cons v (JItems.ofList rest)

/-- The value of property `k` among the properties, if the key is present. -/
def JFields.lookup (k : String) : JFields → Option JVal
  | .nil => none
  | .cons k1 v rest => if k1 = k then some v else JFields.lookup k rest

/-- An object literal. -/
def JVal.object (kvs : List (String × JVal)) : JVal := .obj (JFields.ofList kvs)

/-- JavaScript truthiness (`ToBoolean`): `undefined`, `null`, `false`, `0` and `''` are
falsy, every other value is truthy. -/
def JVal.truthy : JVal → Bool
  | .undefined => false
  | .null => false
  | .bool b => b
  | .num n => n != 0
  | .str s => s != ""
  | .arr _ => true
  | .obj _ => true

/-- The JavaScript operator `a || b`. -/
def JVal.or (a b : JVal) : JVal := if a.truthy then a else b

/-- The message of the `TypeError` thrown by a property read on `undefined` or `null`. -/
def typeErrorMessage (base key : String) : String :=
  "Cannot read properties of " ++ base ++ " (reading '" ++ key ++ "')"

/-- Property read `v[k]` (or `v.k`).  It throws a `TypeError` on `undefined` and `null`,
yields the property of an object (`undefined` when the key is absent), and `undefined`
on the other values (none of the keys read by the hooks is a built-in property). -/
def JVal.get (v : JVal) (k : String) : Except String JVal :=
  match v with
  | .undefined => .error (typeErrorMessage "undefined" k)
  | .null => .error (typeErrorMessage "null" k)
  | .obj fields => .ok ((fields.lookup k).getD .undefined)
  | _ => .ok .undefined

/-! ## Messages and node results -/

/-- The Node-RED message, restricted to the three properties the hooks read or write.
A property that is not set is `undefined`. -/
structure Msg where
  payload : JVal
  user_data : JVal
  user_lead_data : JVal
  deriving DecidableEq

/-- How a function node with two outputs ends: it returns the array `[first, second]`
(`none` is `null`, nothing is sent on that output), or its body throws and nothing is
sent at all. -/
inductive Outcome where
  | emitted (first second : Option Msg)
  | uncaught (message : String)
  deriving DecidableEq

/-! ## The store -/

/-- The `error` object of a Supabase response. -/
structure PgError where
  code : String
  message : String
  deriving DecidableEq

/-- A Supabase response `{ data, error }`; `none` is `null`. -/
structure Resp (α : Type) where
  data : Option α
  error : Option PgError
  deriving DecidableEq

/-- A row of table `users`. -/
structure UserRow where
  id : JVal
  email : JVal
  name : JVal
  deriving DecidableEq

/-- A row of table `sales_pipeline_states`. -/
structure StateRow where
  user_id : JVal
  name : JVal
  deriving DecidableEq

/-- A row of table `leads`: the columns of the object built in `UpsertUserAndLead.js`. -/
structure LeadRow where
  lead_id : JVal
  user_id : JVal
  field_data : JVal
  date_created : JVal
  ad_id : JVal
  form_id : JVal
  page_id : JVal
  ad_group_id : JVal
  deriving DecidableEq

/-- A row of table `user_current_chat`. -/
structure ChatRow where
  user_id : JVal
  chat_id : JVal
  redbot_user_id : JVal
  updated_at : JVal
  deriving DecidableEq

/-- The four tables, the schedule of injected faults (one entry per store call still to
come: `some e` makes that call answer `{ data: null, error: e }` without touching the
tables, `none` or an exhausted schedule lets it run), and the log of the writes that
were carried out, as table names, oldest first. -/
structure Store where
  users : List UserRow
  sales_pipeline_states : List StateRow
  leads : List LeadRow
  user_current_chat : List ChatRow
  faults : List (Option PgError)
  writes : List String
  deriving DecidableEq

/-- The fault injected into the next store call, if any. -/
def Store.pendingFault (db : Store) : Option PgError := db.faults.head?.join

/-- The store once the next store call has consumed its entry of the fault schedule. -/
def Store.tick (db : Store) : Store := { db with faults := db.faults.tail }

/-- PostgREST error `PGRST116`: `.single()` did not find exactly one row. -/
def noRows : PgError :=
  { code := "PGRST116", message := "JSON object requested, multiple (or no) rows returned" }

/-- PostgreSQL error `23505`: a unique key is violated. -/
def uniqueViolation : PgError :=
  { code := "23505", message := "duplicate key value violates unique constraint" }

/-- The answer of `.single()` on the selected rows. -/
def single {α : Type} (rows : List α) : Resp α :=
  match rows with
  | [r] => { data := some r, error := none }
  | _ => { data := none, error := some noRows }

/-- Rank of an id: numeric ids are ranked above every other value. -/
def JVal.idRank : JVal → Nat
  | .num n => n.toNat + 1
  | _ => 0

/-- The greatest rank in a list of ids. -/
def maxRank (ids : List JVal) : Nat := (ids.map JVal.idRank).foldr max 0

/-- All account ids that occur in the store. -/
def Store.accountIds (db : Store) : List JVal :=
  db.users.map (·.id) ++ db.sales_pipeline_states.map (·.user_id)
    ++ db.leads.map (·.user_id) ++ db.user_current_chat.map (·.user_id)

/-- The id the store generates for a new `users` row: a value that occurs nowhere in the
store as an account id (the store's generated primary key). -/
def Store.freshId (db : Store) : JVal := .num (maxRank db.accountIds)

/-- The call `supabase.from('users').select('id').eq('email', email).single()`. -/
def Store.selectUserByEmail (db : Store) (email : JVal) : Resp UserRow × Store :=
  match db.pendingFault with
  | some e => ({ data := none, error := some e }, db.tick)
  | none => (single (db.users.filter (fun u => u.email = email)), db.tick)

/-- Modelled from the spec: the schema of `users` is not in the repository; the spec
declares `email` a unique key of Account (§3, §5), so an insert of an email that is
already there is rejected.
The call `supabase.from('users').insert({ email, name }).select().single()`. -/
def Store.insertUser (db : Store) (email name : JVal) : Resp UserRow × Store :=
  match db.pendingFault with
  | some e => ({ data := none, error := some e }, db.tick)
  | none =>
    if db.users.any (fun u => u.email = email) then
      ({ data := none, error := some uniqueViolation }, db.tick)
    else
      let row : UserRow := { id := db.freshId, email := email, name := name }
      ({ data := some row, error := none },
        { db.tick with users := db.users ++ [row], writes := db.writes ++ ["users"] })

/-- The call `supabase.from('sales_pipeline_states').insert({ user_id, name })`. -/
def Store.insertState (db : Store) (user_id name : JVal) : Resp Unit × Store :=
  match db.pendingFault with
  | some e => ({ data := none, error := some e }, db.tick)
  | none =>
    ({ data := none, error := none },
      { db.tick with
        sales_pipeline_states := db.sales_pipeline_states ++ [{ user_id := user_id, name := name }],
        writes := db.writes ++ ["sales_pipeline_states"] })

/-- The rows of `leads` after an upsert of `lead` with conflict key `lead_id`: the row
with that `lead_id` is overwritten, or the lead is appended when there is none. -/
def upsertLeadRows (rows : List LeadRow) (lead : LeadRow) : List LeadRow :=
  if rows.any (fun r => r.lead_id = lead.lead_id) then
    rows.map (fun r => if r.lead_id = lead.lead_id then lead else r)
  else rows ++ [lead]

/-- The call `supabase.from('leads').upsert(lead, { onConflict: ['lead_id'] })`, alone
(`data` is `null`: no `.select()`) or followed by `.select().single()`. -/
def Store.upsertLead (db : Store) (lead : LeadRow) (select : Bool) : Resp LeadRow × Store :=
  match db.pendingFault with
  | some e => ({ data := none, error := some e }, db.tick)
  | none =>
    ({ data := if select then some lead else none, error := none },
      { db.tick with leads := upsertLeadRows db.leads lead, writes := db.writes ++ ["leads"] })

/-- The rows of `user_current_chat` after an upsert of `{ user_id, chat_id, updated_at }`
with conflict key `user_id`: the row of that user gets the new `chat_id` and
`updated_at` and keeps its other column, or a new row is appended when there is none. -/
def upsertChatRows (rows : List ChatRow) (user_id chat_id updated_at : JVal) : List ChatRow :=
  if rows.any (fun r => r.user_id = user_id) then
    rows.map (fun r =>
      if r.user_id = user_id then { r with chat_id := chat_id, updated_at := updated_at } else r)
  else
    rows ++ [{ user_id := user_id, chat_id := chat_id, redbot_user_id := .null,
               updated_at := updated_at }]

/-- The call `supabase.from('user_current_chat').upsert({ user_id, chat_id, updated_at },
{ onConflict: ['user_id'] })`. -/
def Store.upsertChat (db : Store) (user_id chat_id updated_at : JVal) : Resp Unit × Store :=
  match db.pendingFault with
  | some e => ({ data := none, error := some e }, db.tick)
  | none =>
    ({ data := none, error := none },
      { db.tick with
        user_current_chat := upsertChatRows db.user_current_chat user_id chat_id updated_at,
        writes := db.writes ++ ["user_current_chat"] })

/-- The call `supabase.from('user_current_chat').select('chat_id, user_id')
.eq('redbot_user_id', userId).single()`. -/
def Store.selectChatByRedbotUser (db : Store) (userId : JVal) : Resp ChatRow × Store :=
  match db.pendingFault with
  | some e => ({ data := none, error := some e }, db.tick)
  | none => (single (db.user_current_chat.filter (fun r => r.redbot_user_id = userId)), db.tick)

/-- The call `supabase.from('leads').select('*').eq('user_id', userId)`. -/
def Store.selectLeadsByUser (db : Store) (userId : JVal) : Resp (List LeadRow) × Store :=
  match db.pendingFault with
  | some e => ({ data := none, error := some e }, db.tick)
  | none => ({ data := some (db.leads.filter (fun r => r.user_id = userId)), error := none },
      db.tick)

/-! ## `UpsertUserAndLead.js` -/

/-- The object `{ id, is_new }` returned by `getOrCreateUser`. -/
structure UserResult where
  id : JVal
  is_new : Bool
  deriving DecidableEq

/-- Lines 35-58 of `getOrCreateUser`: the user does not exist, create the user, set the
state in `sales_pipeline_states` and return the new id with `is_new: true`. -/
def createUser (email name : JVal) (db : Store) : Except String UserResult × Store :=
  -- If user does not exist, create the user
  let (created, db1) := db.insertUser email name
  -- If there is an error creating the user, throw an error
  match created.error with
  | some newUserError => (.error newUserError.message, db1)
  | none =>
    match created.data with
    | none => (.error (typeErrorMessage "null" "id"), db1)
    | some newUserData =>
      -- Set the state in sales_pipeline_states as 'ad_potential_lead' for the new user
      let (stated, db2) := db1.insertState newUserData.id (.str "ad_potential_lead")
      -- If there is an error setting the state, throw an error
      match stated.error with
      | some stateError => (.error stateError.message, db2)
      | none => (.ok { id := newUserData.id, is_new := true }, db2)

/-- The function `getOrCreateUser(email, name)` of `UpsertUserAndLead.js`: lines 18-33,
followed by `createUser`. -/
def getOrCreateUser (email name : JVal) (db : Store) : Except String UserResult × Store :=
  -- Check if the user already exists
  let (fetched, db1) := db.selectUserByEmail email
  -- If there is an error other than "No rows found", throw an error
  match fetched.error.filter (fun fetchError => fetchError.code ≠ "PGRST116") with
  | some fetchError => (.error fetchError.message, db1)
  | none =>
    -- If user exists, return the user ID and new flag as false
    match fetched.data with
    | some existingUser => (.ok { id := existingUser.id, is_new := false }, db1)
    | none => createUser email name db1

/-- The function `upsertLead(lead)` of `UpsertUserAndLead.js` (defined there, not called). -/
def upsertLead (lead : LeadRow) (db : Store) : Except String (Option LeadRow) × Store :=
  let (r, db1) := db.upsertLead lead false
  match r.error with
  | some error => (.error error.message, db1)
  | none => (.ok r.data, db1)

/-- The object literal `lead` of `UpsertUserAndLead.js`, lines 80-89, for a payload on
which the property reads of lines 75-76 did not throw. -/
def mkLead (leadPayload userId : JVal) : Except String LeadRow := do
  let leadId ← leadPayload.get "Lead ID"
  let fieldData ← leadPayload.get "Field data"
  let dateCreated ← leadPayload.get "Date created"
  let adId ← leadPayload.get "Ad ID"
  let formId ← leadPayload.get "Form ID"
  let pageId ← leadPayload.get "Page ID"
  let adGroupId ← leadPayload.get "Ad group ID"
  return {
    lead_id := leadId
    user_id := userId
    field_data := fieldData
    date_created := dateCreated
    ad_id := adId.or (.str "000000000000000000")
    form_id := formId.or (.str "000000000000000")
    page_id := pageId.or (.str "000000000000000")
    ad_group_id := adGroupId.or (.str "000000000000000000") }

/-- A `leads` row as the JavaScript object the store returns. -/
def LeadRow.toJVal (r : LeadRow) : JVal :=
  JVal.object [("lead_id", r.lead_id), ("user_id", r.user_id), ("field_data", r.field_data),
    ("date_created", r.date_created), ("ad_id", r.ad_id), ("form_id", r.form_id),
    ("page_id", r.page_id), ("ad_group_id", r.ad_group_id)]

/-- The object `{ error: message }` assigned to `msg.payload` in the `catch` blocks. -/
def errorPayload (message : String) : JVal := JVal.object [("error", .str message)]

/-- The `try`/`catch` of `UpsertUserAndLead.js`, lines 91-111: upsert the lead, select the
single row, and set `msg.payload` to the row, or to the error payload when the store
reports an error. -/
def upsertAndAssign (msg : Msg) (lead : LeadRow) (db : Store) : Msg × Store :=
  let (r, db1) := db.upsertLead lead true
  match r.error with
  | some error => ({ msg with payload := errorPayload error.message }, db1)
  | none =>
    match r.data with
    | some data => ({ msg with payload := data.toJVal }, db1)
    | none => ({ msg with payload := .null }, db1)

/-- The final `if (is_new)` of `UpsertUserAndLead.js`, lines 119-125. -/
def routeByNew (is_new : Bool) (msg : Msg) : Outcome :=
  if is_new then .emitted none (some msg) else .emitted (some msg) none

/-- The body of the function node `UpsertUserAndLead.js`, lines 74-125. -/
def upsertUserAndLead (msg : Msg) (db : Store) : Outcome × Store :=
  let leadPayload := msg.payload
  match leadPayload.get "Field data" >>= fun fd => fd.get "Work email" with
  | .error e => (.uncaught e, db)
  | .ok email =>
    match leadPayload.get "Field data" >>= fun fd => fd.get "Full name" with
    | .error e => (.uncaught e, db)
    | .ok full_name =>
      match getOrCreateUser email full_name db with
      | (.error e, db1) => (.uncaught e, db1)
      | (.ok user, db1) =>
        match mkLead leadPayload user.id with
        | .error e => (.uncaught e, db1)
        | .ok lead =>
          let (msg1, db2) := upsertAndAssign msg lead db1
          (routeByNew user.is_new msg1, db2)

/-! ## `StoreChatid.js` -/

/-- The function `storeChatIdUpsert(msg)` of `StoreChatid.js`; `now` is the value of
`new Date()`. -/
def storeChatIdUpsert (now : JVal) (msg : Msg) (db : Store) : Except String Unit × Store :=
  -- Extract userId and chatId from msg
  match msg.user_data.get "user_id" with
  | .error e => (.error e, db)
  | .ok userId =>
    match msg.payload.get "chatId" with
    | .error e => (.error e, db)
    | .ok chatId =>
      -- Upsert the chatId for the user
      let (r, db1) := db.upsertChat userId chatId now
      match r.error with
      | some upsertError => (.error upsertError.message, db1)
      | none => (.ok (), db1)

/-! ## `getUserDataFromRedBotUserID.js` -/

/-- The function `getUserDataFromRedBotUserID(msg)`: the array `[msg, { emilia_user }]`
it returns is the pair of the (updated) message and the flag. -/
def getUserDataFromRedBotUserID (msg : Msg) (db : Store) : Except String (Msg × Bool) × Store :=
  -- Extract userId from msg.payload
  match msg.payload.get "userId" with
  | .error e => (.error e, db)
  | .ok userId =>
    let (r, db1) := db.selectChatByRedbotUser userId
    -- If there is an error retrieving the record, return [msg, {emilia_user: false}]
    match r.error with
    | some _ => (.ok (msg, false), db1)
    | none =>
      match r.data with
      | none => (.error (typeErrorMessage "null" "chat_id"), db1)
      | some data =>
        -- Store the chat ID, user ID, and redbot_user_id in msg.user_data
        (.ok ({ msg with user_data := JVal.object [("flowise_chat_id", data.chat_id),
                  ("user_id", data.user_id), ("redbot_user_id", userId)] }, true), db1)

/-- The JavaScript array of the given `leads` rows. -/
def leadsToJVal (rows : List LeadRow) : JVal := .arr (JItems.ofList (rows.map LeadRow.toJVal))

/-- The function `getLeadDataFromUserId(msg)`: it returns the message with
`user_lead_data` set. -/
def getLeadDataFromUserId (msg : Msg) (db : Store) : Except String Msg × Store :=
  -- Extract userId from msg.user_data
  match msg.user_data.get "user_id" with
  | .error e => (.error e, db)
  | .ok userId =>
    let (r, db1) := db.selectLeadsByUser userId
    match r.error with
    | some selectError => (.error selectError.message, db1)
    | none =>
      match r.data with
      | some data => (.ok { msg with user_lead_data := leadsToJVal data }, db1)
      | none => (.ok { msg with user_lead_data := .null }, db1)

/-- The body of the function node `getUserDataFromRedBotUserID.js`, lines 77-96.  The
message is one mutable object: what the `catch` block sends is the message as the failing
step left it, with the error payload. -/
def getUserDataNode (msg : Msg) (db : Store) : Outcome × Store :=
  match getUserDataFromRedBotUserID msg db with
  | (.error e, db1) => (.emitted none (some { msg with payload := errorPayload e }), db1)
  | (.ok (updatedMsg, emilia_user), db1) =>
    if emilia_user then
      match getLeadDataFromUserId updatedMsg db1 with
      | (.error e, db2) =>
        (.emitted none (some { updatedMsg with payload := errorPayload e }), db2)
      | (.ok filled, db2) => (.emitted (some filled) none, db2)
    else
      (.emitted none (some updatedMsg), db1)

/-! ## Scenario stores -/

/-- A store with the given tables, no injected fault and an empty write log. -/
def Store.ofTables (users : List UserRow) (states : List StateRow) (leads : List LeadRow)
    (chats : List ChatRow) : Store :=
  { users := users, sales_pipeline_states := states, leads := leads,
    user_current_chat := chats, faults := [], writes := [] }

/-- The empty store. -/
def Store.empty : Store := Store.ofTables [] [] [] []

/-- A message that carries only a payload. -/
def Msg.ofPayload (payload : JVal) : Msg :=
  { payload := payload, user_data := .undefined, user_lead_data := .undefined }

/-- The lead payload of the spec's scenarios: the given `Lead ID`, email `a@x.com`, name
`A`, no tracking ids. -/
def scenarioLead (leadId : String) : Msg :=
  Msg.ofPayload (JVal.object [("Lead ID", .str leadId),
    ("Field data", JVal.object [("Work email", .str "a@x.com"), ("Full name", .str "A")]),
    ("Date created", .str "2024-01-01")])

/-- The `leads` row the scenario expects for that payload and account `0`: the four
tracking fields hold the sentinels. -/
def scenarioRow (leadId : String) : LeadRow :=
  { lead_id := .str leadId
    user_id := .num 0
    field_data := JVal.object [("Work email", .str "a@x.com"), ("Full name", .str "A")]
    date_created := .str "2024-01-01"
    ad_id := .str "000000000000000000"
    form_id := .str "000000000000000"
    page_id := .str "000000000000000"
    ad_group_id := .str "000000000000000000" }

/-- The store after lead `L1` of the scenario was taken in on the empty store. -/
def storeAfterL1 : Store := (upsertUserAndLead (scenarioLead "L1") Store.empty).2

/-- The message `storeChatIdUpsert` reads: account `user_id` and chat `chatId`. -/
def chatMsg (user_id chatId : JVal) : Msg :=
  { payload := JVal.object [("chatId", chatId)]
    user_data := JVal.object [("user_id", user_id)]
    user_lead_data := .undefined }

/-- A store whose only content is the chat session of account `7`, linked to the
messaging user `rb7`, and one lead of that account. -/
def storeWithSession : Store :=
  Store.ofTables [] [] [{ scenarioRow "L7" with user_id := .num 7 }]
    [{ user_id := .num 7, chat_id := .str "c0", redbot_user_id := .str "rb7",
       updated_at := .num 1 }]

/-- The store `storeWithSession` with a second session, of account `8`, linked to the
same messaging user `rb7`. -/
def storeWithTwoSessions : Store :=
  { storeWithSession with
    user_current_chat := storeWithSession.user_current_chat ++
      [{ user_id := .num 8, chat_id := .str "c9", redbot_user_id := .str "rb7",
         updated_at := .num 2 }] }

/-- A transport failure of the store, as opposed to "no rows". -/
def connectionFailure : PgError := { code := "08006", message := "connection failure" }

/-- The empty store with the given schedule of faults. -/
def Store.withFaults (faults : List (Option PgError)) : Store :=
  { Store.empty with faults := faults }

/-! ## Predicates on stores -/

/-- No store call still to come is made to fail. -/
def Store.FaultFree (db : Store) : Prop := ∀ f ∈ db.faults, f = none

/-- The column `email` is a unique key of `users`: no two rows share an email. -/
def Store.UniqueEmail (db : Store) : Prop := (db.users.map (·.email)).Nodup

/-- At most one row of `user_current_chat` per `user_id`. -/
def OneChatPerUser (rows : List ChatRow) : Prop := (rows.map (·.user_id)).Nodup

instance (db : Store) : Decidable db.FaultFree :=
  inferInstanceAs (Decidable (∀ f ∈ db.faults, f = none))

instance (db : Store) : Decidable db.UniqueEmail :=
  inferInstanceAs (Decidable (db.users.map (fun u : UserRow => u.email)).Nodup)

instance (rows : List ChatRow) : Decidable (OneChatPerUser rows) :=
  inferInstanceAs (Decidable (rows.map (fun r : ChatRow => r.user_id)).Nodup)

/-- The value is `undefined` or `null`. -/
def JVal.isNullish : JVal → Bool
  | .undefined => true
  | .null => true
  | _ => false

/-! ## Stores and values used to state the results -/

/-- The store after a successful insert into `users`. -/
def Store.addUser (db : Store) (email name : JVal) : Store :=
  { db.tick with
    users := db.users ++ [{ id := db.freshId, email := email, name := name }]
    writes := db.writes ++ ["users"] }

/-- The store after a successful insert into `sales_pipeline_states`. -/
def Store.addState (db : Store) (user_id name : JVal) : Store :=
  { db.tick with
    sales_pipeline_states := db.sales_pipeline_states ++ [{ user_id := user_id, name := name }]
    writes := db.writes ++ ["sales_pipeline_states"] }

/-- The update an upsert applies to the row of `user_id`. -/
def touchChat (user_id chat_id updated_at : JVal) (r : ChatRow) : ChatRow :=
  if r.user_id = user_id then { r with chat_id := chat_id, updated_at := updated_at } else r

/-- The store after a successful upsert into `user_current_chat`. -/
def Store.putChat (db : Store) (user_id chat_id updated_at : JVal) : Store :=
  { db.tick with
    user_current_chat := upsertChatRows db.user_current_chat user_id chat_id updated_at
    writes := db.writes ++ ["user_current_chat"] }

/-- The object assigned to `msg.user_data` for the session row `data`. -/
def userDataOf (data : ChatRow) (userId : JVal) : JVal :=
  JVal.object [("flowise_chat_id", data.chat_id), ("user_id", data.user_id),
    ("redbot_user_id", userId)]

/-! ## Facts about the store calls -/

theorem mkLead_ok_of_get_ok {v : JVal} {k : String} {x : JVal} (h : v.get k = .ok x)
    (userId : JVal) : ∃ lead, mkLead v userId = .ok lead := by
  cases v <;> simp [JVal.get] at h <;> exact ⟨_, rfl⟩

theorem payload_get_of_bind {v : JVal} {k : String} {x : JVal}
    (h : (v.get "Field data" >>= fun fd => fd.get k) = .ok x) :
    ∃ fd, v.get "Field data" = .ok fd := by
  cases hfd : v.get "Field data" with
  | error e => rw [hfd] at h; cases h
  | ok fd => exact ⟨fd, rfl⟩

@[simp]
theorem tick_users (db : Store) : db.tick.users = db.users := rfl

@[simp]
theorem tick_states (db : Store) :
    db.tick.sales_pipeline_states = db.sales_pipeline_states := rfl

@[simp]
theorem tick_leads (db : Store) : db.tick.leads = db.leads := rfl

@[simp]
theorem tick_chats (db : Store) : db.tick.user_current_chat = db.user_current_chat := rfl

@[simp]
theorem tick_writes (db : Store) : db.tick.writes = db.writes := rfl

theorem single_data_mem {α : Type} {rows : List α} {r : α} (h : (single rows).data = some r) :
    rows = [r] := by
  unfold single at h
  split at h
  · simp at h; subst h; rfl
  · simp at h

theorem selectUserByEmail_fault {db : Store} {e : PgError} (hf : db.pendingFault = some e)
    (email : JVal) :
    db.selectUserByEmail email = ({ data := none, error := some e }, db.tick) := by
  simp [Store.selectUserByEmail, hf]

theorem selectUserByEmail_run {db : Store} (hf : db.pendingFault = none) (email : JVal) :
    db.selectUserByEmail email
      = (single (db.users.filter (fun u => u.email = email)), db.tick) := by
  simp [Store.selectUserByEmail, hf]

theorem insertUser_fault {db : Store} {e : PgError} (hf : db.pendingFault = some e)
    (email name : JVal) :
    db.insertUser email name = ({ data := none, error := some e }, db.tick) := by
  simp [Store.insertUser, hf]

theorem insertUser_dup {db : Store} (hf : db.pendingFault = none) {email : JVal}
    (hany : db.users.any (fun u => u.email = email) = true) (name : JVal) :
    db.insertUser email name = ({ data := none, error := some uniqueViolation }, db.tick) := by
  simp only [Store.insertUser, hf, hany, if_true]

theorem insertUser_run {db : Store} (hf : db.pendingFault = none) {email : JVal}
    (hany : db.users.any (fun u => u.email = email) = false) (name : JVal) :
    db.insertUser email name
      = ({ data := some { id := db.freshId, email := email, name := name }, error := none },
          db.addUser email name) := by
  simp only [Store.insertUser, hf, hany, Store.addUser]
  rfl

theorem insertState_fault {db : Store} {e : PgError} (hf : db.pendingFault = some e)
    (user_id name : JVal) :
    db.insertState user_id name = ({ data := none, error := some e }, db.tick) := by
  simp [Store.insertState, hf]

theorem insertState_run {db : Store} (hf : db.pendingFault = none) (user_id name : JVal) :
    db.insertState user_id name = ({ data := none, error := none }, db.addState user_id name) := by
  simp [Store.insertState, hf, Store.addState]

/-- The three ways `createUser` can end, by what the two inserts answer. -/
theorem createUser_cases (email name : JVal) (db : Store) :
    (∃ e, (db.insertUser email name).1.error = some e ∧
        createUser email name db = (.error e.message, db.tick)) ∨
    (∃ e, db.pendingFault = none ∧ (∀ u ∈ db.users, u.email ≠ email) ∧
        (db.addUser email name).pendingFault = some e ∧
        createUser email name db = (.error e.message, (db.addUser email name).tick)) ∨
    (db.pendingFault = none ∧ (∀ u ∈ db.users, u.email ≠ email) ∧
        (db.addUser email name).pendingFault = none ∧
        createUser email name db
          = (.ok { id := db.freshId, is_new := true },
              (db.addUser email name).addState db.freshId (.str "ad_potential_lead"))) := by
  cases hf : db.pendingFault with
  | some e =>
    left
    exact ⟨e, by rw [insertUser_fault hf], by simp [createUser, insertUser_fault hf]⟩
  | none =>
    cases hany : db.users.any (fun u => u.email = email) with
    | true =>
      left
      exact ⟨uniqueViolation, by rw [insertUser_dup hf hany],
        by simp [createUser, insertUser_dup hf hany]⟩
    | false =>
      have hnone : ∀ u ∈ db.users, u.email ≠ email := by
        intro u hu heq
        have : db.users.any (fun u => u.email = email) = true :=
          List.any_eq_true.mpr ⟨u, hu, by simp [heq]⟩
        rw [hany] at this
        cases this
      right
      cases hf2 : (db.addUser email name).pendingFault with
      | some e =>
        left
        exact ⟨e, rfl, hnone, rfl, by
          simp [createUser, insertUser_run hf hany, insertState_fault hf2]⟩
      | none =>
        right
        exact ⟨rfl, hnone, rfl, by
          simp [createUser, insertUser_run hf hany, insertState_run hf2]⟩

/-- The three ways `getOrCreateUser` can go, by what the lookup answers: a fatal lookup
error, the found path, or the creation path (the lookup reported "no rows"). -/
theorem getOrCreateUser_cases (email name : JVal) (db : Store) :
    (∃ e, (db.selectUserByEmail email).1 = { data := none, error := some e } ∧
        e.code ≠ "PGRST116" ∧ db.pendingFault = some e ∧
        getOrCreateUser email name db = (.error e.message, db.tick)) ∨
    (∃ u, (db.selectUserByEmail email).1 = { data := some u, error := none } ∧
        db.pendingFault = none ∧ db.users.filter (fun r => r.email = email) = [u] ∧
        getOrCreateUser email name db = (.ok { id := u.id, is_new := false }, db.tick)) ∨
    (∃ e, (db.selectUserByEmail email).1 = { data := none, error := some e } ∧
        e.code = "PGRST116" ∧
        (db.pendingFault = none → ∀ u, db.users.filter (fun r => r.email = email) ≠ [u]) ∧
        getOrCreateUser email name db = createUser email name db.tick) := by
  cases hf : db.pendingFault with
  | some e =>
    by_cases hc : e.code = "PGRST116"
    · right; right
      exact ⟨e, by rw [selectUserByEmail_fault hf], hc, by simp,
        by simp [getOrCreateUser, selectUserByEmail_fault hf, Option.filter, hc]⟩
    · left
      exact ⟨e, by rw [selectUserByEmail_fault hf], hc, rfl,
        by simp [getOrCreateUser, selectUserByEmail_fault hf, Option.filter, hc]⟩
  | none =>
    right
    simp only [getOrCreateUser, selectUserByEmail_run hf]
    generalize db.users.filter (fun r => r.email = email) = rows
    rcases rows with _ | ⟨a, _ | ⟨b, rest⟩⟩
    · right
      exact ⟨noRows, by simp [single], rfl, by simp, by simp [single, Option.filter, noRows]⟩
    · left
      exact ⟨a, by simp [single], trivial, rfl, by simp [single, Option.filter]⟩
    · right
      exact ⟨noRows, by simp [single], rfl, by simp, by simp [single, Option.filter, noRows]⟩

/-! ## Lead intake: routing -/

theorem upsertLead_select_ok {db db2 : Store} {lead row : LeadRow} (msg : Msg)
    (h : db.upsertLead lead true = ({ data := some row, error := none }, db2)) :
    upsertAndAssign msg lead db = ({ msg with payload := row.toJVal }, db2) := by
  simp [upsertAndAssign, h]

/-- C1: when account resolution and the lead upsert both succeed, the lead-intake node
returns the message in exactly one of its two slots, the second slot (channel B) when
`is_new` is true and the first slot (channel A) when it is false, with `msg.payload` the
lead row returned by the upsert; and `is_new` is false exactly when a `users` row with
that email existed before, whatever the `leads` table holds. -/
theorem upsertUserAndLead_routes_by_is_new (msg : Msg) (db db1 : Store)
    (email full_name : JVal) (user : UserResult)
    (hemail : (msg.payload.get "Field data" >>= fun fd => fd.get "Work email") = .ok email)
    (hname : (msg.payload.get "Field data" >>= fun fd => fd.get "Full name") = .ok full_name)
    (huser : getOrCreateUser email full_name db = (.ok user, db1)) :
    ∃ lead, mkLead msg.payload user.id = .ok lead ∧
      (∀ row db2, db1.upsertLead lead true = ({ data := some row, error := none }, db2) →
        upsertUserAndLead msg db
          = (if user.is_new then .emitted none (some { msg with payload := row.toJVal })
              else .emitted (some { msg with payload := row.toJVal }) none, db2)) ∧
      (user.is_new = false ↔ ∃ u ∈ db.users, u.email = email) := by
  obtain ⟨fd, hfd⟩ := payload_get_of_bind hemail
  obtain ⟨lead, hlead⟩ := mkLead_ok_of_get_ok hfd user.id
  refine ⟨lead, hlead, ?_, ?_⟩
  · intro row db2 hup
    simp only [upsertUserAndLead, hemail, hname, huser, hlead, upsertLead_select_ok msg hup,
      routeByNew]
  · rcases getOrCreateUser_cases email full_name db with
      ⟨e, _, _, _, hg⟩ | ⟨u, _, _, hrows, hg⟩ | ⟨e, _, _, _, hg⟩
    · rw [hg] at huser; cases huser
    · rw [hg] at huser
      cases huser
      have hu : u ∈ db.users.filter (fun r => r.email = email) := by rw [hrows]; simp
      rw [List.mem_filter] at hu
      exact ⟨fun _ => ⟨u, hu.1, by simpa using hu.2⟩, fun _ => rfl⟩
    · rw [hg] at huser
      rcases createUser_cases email full_name db.tick with
        ⟨e2, _, hc⟩ | ⟨e2, _, _, _, hc⟩ | ⟨_, hnone, _, hc⟩
      · rw [hc] at huser; cases huser
      · rw [hc] at huser; cases huser
      · rw [hc] at huser
        cases huser
        constructor
        · intro h; cases h
        · rintro ⟨u, hu, heq⟩
          exact absurd heq (hnone u hu)

theorem upsertUserAndLead_routes_by_is_new_witness :
    (upsertUserAndLead (scenarioLead "L2") storeAfterL1).1
        = .emitted (some (Msg.ofPayload (scenarioRow "L2").toJVal)) none ∧
      (upsertUserAndLead (scenarioLead "L2") storeAfterL1).2.leads
        = [scenarioRow "L1", scenarioRow "L2"] ∧
      ∃ u ∈ storeAfterL1.users, u.email = .str "a@x.com" := by
  obtain ⟨lead, hlead, hroute, hiff⟩ :=
    upsertUserAndLead_routes_by_is_new (scenarioLead "L2") storeAfterL1 storeAfterL1.tick
      (.str "a@x.com") (.str "A") { id := .num 0, is_new := false } rfl rfl rfl
  obtain rfl : scenarioRow "L2" = lead := Except.ok.inj hlead
  have h := hroute (scenarioRow "L2") _ rfl
  exact ⟨congrArg Prod.fst h, congrArg (fun r => r.2.leads) h, hiff.mp rfl⟩

theorem upsertLead_select_error {db db2 : Store} {lead : LeadRow} {e : PgError} (msg : Msg)
    (h : db.upsertLead lead true = ({ data := none, error := some e }, db2)) :
    upsertAndAssign msg lead db = ({ msg with payload := errorPayload e.message }, db2) := by
  simp [upsertAndAssign, h]

/-- C2 (as stated, refuted): on the empty store, with the lead upsert failing, the lead
of the scenario is a new user (`is_new = true`) and the message with the error payload is
returned in the second slot (channel B); the first slot (channel A) is `null`. -/
theorem upsert_failure_of_new_user_leaves_on_second_slot :
    (getOrCreateUser (.str "a@x.com") (.str "A")
        (Store.withFaults [none, none, none, some connectionFailure])).1
      = .ok { id := .num 0, is_new := true } ∧
    (upsertUserAndLead (scenarioLead "L1")
        (Store.withFaults [none, none, none, some connectionFailure])).1
      = .emitted none (some (Msg.ofPayload (errorPayload "connection failure"))) := by
  constructor <;> rfl

/-- C2 (amended): when account resolution succeeds and the lead upsert fails with a store
error, the node returns the message with payload `{ error: message }` in exactly one
slot, chosen by `is_new` as on success: the second slot (channel B) when `is_new` is
true, the first slot (channel A) when it is false. -/
theorem upsertUserAndLead_failure_routes_by_is_new (msg : Msg) (db db1 : Store)
    (email full_name : JVal) (user : UserResult)
    (hemail : (msg.payload.get "Field data" >>= fun fd => fd.get "Work email") = .ok email)
    (hname : (msg.payload.get "Field data" >>= fun fd => fd.get "Full name") = .ok full_name)
    (huser : getOrCreateUser email full_name db = (.ok user, db1)) :
    ∃ lead, mkLead msg.payload user.id = .ok lead ∧
      ∀ e db2, db1.upsertLead lead true = ({ data := none, error := some e }, db2) →
        upsertUserAndLead msg db
          = (if user.is_new then
                .emitted none (some { msg with payload := errorPayload e.message })
              else .emitted (some { msg with payload := errorPayload e.message }) none, db2) := by
  obtain ⟨fd, hfd⟩ := payload_get_of_bind hemail
  obtain ⟨lead, hlead⟩ := mkLead_ok_of_get_ok hfd user.id
  refine ⟨lead, hlead, ?_⟩
  intro e db2 hup
  simp only [upsertUserAndLead, hemail, hname, huser, hlead, upsertLead_select_error msg hup,
    routeByNew]

theorem upsertUserAndLead_failure_routes_by_is_new_witness :
    upsertUserAndLead (scenarioLead "L2")
        { storeAfterL1 with faults := [none, some connectionFailure] }
      = (.emitted (some (Msg.ofPayload (errorPayload "connection failure"))) none,
          storeAfterL1) := by
  obtain ⟨lead, _, hroute⟩ :=
    upsertUserAndLead_failure_routes_by_is_new (scenarioLead "L2")
      { storeAfterL1 with faults := [none, some connectionFailure] }
      { storeAfterL1 with faults := [some connectionFailure] }
      (.str "a@x.com") (.str "A") { id := .num 0, is_new := false } rfl rfl rfl
  exact hroute connectionFailure storeAfterL1 rfl

/-- C3 (the code at the failing inputs): a lookup that fails with a transport error, and
a payload without `Field data`, both end the node with an uncaught exception: nothing is
returned on either output and no error payload is produced. -/
theorem upsertUserAndLead_uncaught_before_upsert :
    upsertUserAndLead (scenarioLead "L1") (Store.withFaults [some connectionFailure])
      = (.uncaught "connection failure", Store.empty) ∧
    upsertUserAndLead (Msg.ofPayload (JVal.object [("Lead ID", .str "L1")])) Store.empty
      = (.uncaught "Cannot read properties of undefined (reading 'Work email')",
          Store.empty) := by
  constructor <;> rfl

/-! ## Account resolution: writes -/

@[simp]
theorem addUser_writes (db : Store) (email name : JVal) :
    (db.addUser email name).writes = db.writes ++ ["users"] := rfl

@[simp]
theorem addState_writes (db : Store) (user_id name : JVal) :
    (db.addState user_id name).writes = db.writes ++ ["sales_pipeline_states"] := rfl

/-- C5 (as stated, refuted): on the empty store, with the `sales_pipeline_states` insert
failing, `getOrCreateUser` is on the creation path (the lookup reports "no rows"), throws,
and has carried out exactly one write, the `users` insert. -/
theorem getOrCreateUser_single_write :
    ((Store.withFaults [none, none, some connectionFailure]).selectUserByEmail
        (.str "a@x.com")).1.error = some noRows ∧
    (getOrCreateUser (.str "a@x.com") (.str "A")
        (Store.withFaults [none, none, some connectionFailure])).1
      = .error "connection failure" ∧
    (getOrCreateUser (.str "a@x.com") (.str "A")
        (Store.withFaults [none, none, some connectionFailure])).2.writes = ["users"] := by
  refine ⟨rfl, rfl, rfl⟩

/-- C5 (amended): `getOrCreateUser` carries out no write when the lookup finds an account;
on the creation path (the lookup reports "no rows") it carries out no write when the
`users` insert fails, exactly one write (the `users` insert) when that insert succeeds and
the `sales_pipeline_states` insert fails, and exactly two writes (`users`, then
`sales_pipeline_states`) when both succeed, in which case it returns `is_new = true`. -/
theorem getOrCreateUser_writes (email name : JVal) (db : Store) :
    ((∃ u, (db.selectUserByEmail email).1.data = some u) →
      (getOrCreateUser email name db).2.writes = db.writes) ∧
    ((∃ e, (db.selectUserByEmail email).1.error = some e ∧ e.code = "PGRST116") →
      ((∃ e, (db.tick.insertUser email name).1.error = some e ∧
          (getOrCreateUser email name db).1 = .error e.message) ∧
        (getOrCreateUser email name db).2.writes = db.writes) ∨
      ((db.tick.insertUser email name).1.error = none ∧
        (∃ e, ((db.tick.insertUser email name).2.insertState db.tick.freshId
              (.str "ad_potential_lead")).1.error = some e ∧
          (getOrCreateUser email name db).1 = .error e.message) ∧
        (getOrCreateUser email name db).2.writes = db.writes ++ ["users"]) ∨
      ((db.tick.insertUser email name).1.error = none ∧
        ((db.tick.insertUser email name).2.insertState db.tick.freshId
              (.str "ad_potential_lead")).1.error = none ∧
        (getOrCreateUser email name db).1 = .ok { id := db.tick.freshId, is_new := true } ∧
        (getOrCreateUser email name db).2.writes
          = db.writes ++ ["users", "sales_pipeline_states"])) := by
  rcases getOrCreateUser_cases email name db with
    ⟨e, hr, hc, _, hg⟩ | ⟨u, hr, _, _, hg⟩ | ⟨e, hr, hc, _, hg⟩
  · constructor
    · rintro ⟨u, hu⟩
      rw [hr] at hu
      cases hu
    · rintro ⟨e2, he2, hc2⟩
      rw [hr] at he2
      cases he2
      exact absurd hc2 hc
  · constructor
    · intro _
      rw [hg]
      rfl
    · rintro ⟨e2, he2, _⟩
      rw [hr] at he2
      cases he2
  · constructor
    · rintro ⟨u, hu⟩
      rw [hr] at hu
      cases hu
    · intro _
      rw [hg]
      rcases createUser_cases email name db.tick with
        ⟨e2, he2, hcr⟩ | ⟨e2, hf, hnone, hf2, hcr⟩ | ⟨hf, hnone, hf2, hcr⟩
      · left
        exact ⟨⟨e2, he2, by rw [hcr]⟩, by rw [hcr]; rfl⟩
      · right; left
        have hany : db.tick.users.any (fun u => u.email = email) = false := by
          rw [List.any_eq_false]
          intro u hu
          simpa using hnone u hu
        rw [hcr, insertUser_run hf hany, insertState_fault hf2]
        exact ⟨rfl, ⟨e2, rfl, rfl⟩, rfl⟩
      · right; right
        have hany : db.tick.users.any (fun u => u.email = email) = false := by
          rw [List.any_eq_false]
          intro u hu
          simpa using hnone u hu
        rw [hcr, insertUser_run hf hany, insertState_run hf2]
        exact ⟨rfl, rfl, rfl, by simp⟩

theorem getOrCreateUser_writes_witness :
    (getOrCreateUser (.str "a@x.com") (.str "A") Store.empty).1
        = .ok { id := .num 0, is_new := true } ∧
      (getOrCreateUser (.str "a@x.com") (.str "A") Store.empty).2.writes
        = ["users", "sales_pipeline_states"] ∧
      (getOrCreateUser (.str "a@x.com") (.str "B") storeAfterL1).2.writes
        = storeAfterL1.writes := by
  have hnew := (getOrCreateUser_writes (.str "a@x.com") (.str "A") Store.empty).2
    ⟨noRows, rfl, rfl⟩
  have hold := (getOrCreateUser_writes (.str "a@x.com") (.str "B") storeAfterL1).1
    ⟨{ id := .num 0, email := .str "a@x.com", name := .str "A" }, rfl⟩
  rcases hnew with ⟨⟨e, he, _⟩, _⟩ | ⟨_, ⟨e, he, _⟩, _⟩ | ⟨_, _, hres, hw⟩
  · have hrun : (Store.empty.tick.insertUser (.str "a@x.com") (.str "A")).1.error = none := rfl
    rw [hrun] at he
    cases he
  · have hrun : ((Store.empty.tick.insertUser (.str "a@x.com") (.str "A")).2.insertState
        Store.empty.tick.freshId (.str "ad_potential_lead")).1.error = none := rfl
    rw [hrun] at he
    cases he
  · exact ⟨hres, hw, hold⟩

/-! ## Account resolution: idempotence -/

theorem pendingFault_of_faultFree {db : Store} (h : db.FaultFree) : db.pendingFault = none := by
  unfold Store.pendingFault
  cases hf : db.faults with
  | nil => rfl
  | cons f rest =>
    have : f = none := h f (by rw [hf]; simp)
    subst this
    rfl

theorem faultFree_tick {db : Store} (h : db.FaultFree) : db.tick.FaultFree := by
  intro f hf
  exact h f (List.mem_of_mem_tail hf)

theorem faultFree_addUser {db : Store} (h : db.FaultFree) (email name : JVal) :
    (db.addUser email name).FaultFree := faultFree_tick h

theorem faultFree_addState {db : Store} (h : db.FaultFree) (user_id name : JVal) :
    (db.addState user_id name).FaultFree := faultFree_tick h

theorem idRank_le_maxRank {ids : List JVal} {x : JVal} (h : x ∈ ids) :
    x.idRank ≤ maxRank ids := by
  induction ids with
  | nil => cases h
  | cons a rest ih =>
    simp only [maxRank, List.map_cons, List.foldr_cons]
    rcases List.mem_cons.mp h with rfl | h
    · exact le_max_left _ _
    · exact le_trans (ih h) (le_max_right _ _)

/-- The generated id occurs nowhere among the given ids. -/
theorem num_maxRank_not_mem (ids : List JVal) : JVal.num (maxRank ids) ∉ ids := by
  intro h
  have := idRank_le_maxRank h
  simp [JVal.idRank] at this

theorem freshId_not_state (db : Store) : ∀ s ∈ db.sales_pipeline_states, s.user_id ≠ db.freshId := by
  intro s hs heq
  apply num_maxRank_not_mem db.accountIds
  show db.freshId ∈ db.accountIds
  rw [← heq]
  simp only [Store.accountIds, List.mem_append, List.mem_map]
  exact Or.inl (Or.inl (Or.inr ⟨s, hs, rfl⟩))

theorem filter_length_le_one_of_nodup {α β : Type} [DecidableEq β] (f : α → β) (b : β) :
    ∀ l : List α, (l.map f).Nodup → (l.filter (fun a => f a = b)).length ≤ 1 := by
  intro l
  induction l with
  | nil => intro _; simp
  | cons a rest ih =>
    intro h
    rw [List.map_cons, List.nodup_cons] at h
    by_cases hab : f a = b
    · have hrest : rest.filter (fun a => f a = b) = [] := by
        rw [List.filter_eq_nil_iff]
        intro x hx hxb
        apply h.1
        rw [hab]
        exact List.mem_map.mpr ⟨x, hx, by simpa using hxb⟩
      simp [List.filter_cons, hab, hrest]
    · simpa [List.filter_cons, hab] using ih h.2

/-- On a fault-free store the lookup of an email that one row carries finds that row and
writes nothing. -/
theorem getOrCreateUser_found {db : Store} (hfree : db.FaultFree) {email : JVal} {u : UserRow}
    (hrows : db.users.filter (fun r => r.email = email) = [u]) (name : JVal) :
    getOrCreateUser email name db = (.ok { id := u.id, is_new := false }, db.tick) := by
  have hpf := pendingFault_of_faultFree hfree
  rcases getOrCreateUser_cases email name db with
    ⟨e, _, _, hf, _⟩ | ⟨v, _, _, hv, hg⟩ | ⟨e, _, _, hne, _⟩
  · rw [hpf] at hf; cases hf
  · rw [hrows] at hv
    cases hv
    exact hg
  · exact absurd hrows (hne hpf u)

/-- On a fault-free store the resolution of an email that no row carries creates the
account and its pipeline state. -/
theorem getOrCreateUser_created {db : Store} (hfree : db.FaultFree) {email : JVal}
    (hrows : db.users.filter (fun r => r.email = email) = []) (name : JVal) :
    getOrCreateUser email name db
      = (.ok { id := db.tick.freshId, is_new := true },
          (db.tick.addUser email name).addState db.tick.freshId (.str "ad_potential_lead")) := by
  have hpf := pendingFault_of_faultFree hfree
  have hany : db.tick.users.any (fun u => u.email = email) = false := by
    rw [List.any_eq_false]
    intro u hu
    have := List.filter_eq_nil_iff.mp hrows u hu
    simpa using this
  rcases getOrCreateUser_cases email name db with
    ⟨e, _, _, hf, _⟩ | ⟨v, _, _, hv, _⟩ | ⟨e, _, _, _, hg⟩
  · rw [hpf] at hf; cases hf
  · rw [hrows] at hv; cases hv
  · rw [hg]
    rcases createUser_cases email name db.tick with
      ⟨e2, he2, _⟩ | ⟨e2, _, _, hf2, _⟩ | ⟨_, _, _, hcr⟩
    · rw [insertUser_run (pendingFault_of_faultFree (faultFree_tick hfree)) hany] at he2
      cases he2
    · rw [pendingFault_of_faultFree (faultFree_addUser (faultFree_tick hfree) email name)] at hf2
      cases hf2
    · exact hcr

/-- C4: on a store in which `email` is a unique key of `users` and no store call fails,
`getOrCreateUser(email, n1)` followed by `getOrCreateUser(email, n2)` returns the same id
both times; the second call returns `is_new = false` and writes nothing (the store after
it differs only by the consumed entry of the fault schedule); afterwards exactly one
`users` row has that email; and if no account had that email before the first call, the
first call returns `is_new = true` and afterwards exactly one `sales_pipeline_states` row
has that id, with name `ad_potential_lead`. -/
theorem getOrCreateUser_idempotent (db : Store) (email n1 n2 : String)
    (huniq : db.UniqueEmail) (hfree : db.FaultFree) :
    ∃ id is_new db1 db2,
      getOrCreateUser (.str email) (.str n1) db = (.ok { id := id, is_new := is_new }, db1) ∧
      getOrCreateUser (.str email) (.str n2) db1 = (.ok { id := id, is_new := false }, db2) ∧
      db2 = db1.tick ∧ db2.writes = db1.writes ∧
      (db2.users.filter (fun r => r.email = .str email)).length = 1 ∧
      ((∀ u ∈ db.users, u.email ≠ .str email) →
        is_new = true ∧
        db2.sales_pipeline_states.filter (fun r => r.user_id = id)
          = [{ user_id := id, name := .str "ad_potential_lead" }]) := by
  have hle := filter_length_le_one_of_nodup (fun r : UserRow => r.email) (.str email)
    db.users huniq
  match hrows : db.users.filter (fun r => r.email = .str email) with
  | [u] =>
    refine ⟨u.id, false, db.tick, db.tick.tick, getOrCreateUser_found hfree hrows _,
      getOrCreateUser_found (faultFree_tick hfree) hrows _, rfl, rfl, ?_, ?_⟩
    · show (db.users.filter (fun r => r.email = .str email)).length = 1
      rw [hrows]
      rfl
    · intro hnone
      have hu : u ∈ db.users.filter (fun r => r.email = .str email) := by rw [hrows]; simp
      rw [List.mem_filter] at hu
      exact absurd (by simpa using hu.2) (hnone u hu.1)
  | [] =>
    have hrows1 : ((db.tick.addUser (.str email) (.str n1)).addState db.tick.freshId
        (.str "ad_potential_lead")).users.filter (fun r => r.email = .str email)
          = [{ id := db.tick.freshId, email := .str email, name := .str n1 }] := by
      show (db.users ++ [_]).filter (fun r : UserRow => r.email = JVal.str email) = _
      rw [List.filter_append, hrows]
      simp
    have hfree1 : ((db.tick.addUser (.str email) (.str n1)).addState db.tick.freshId
        (.str "ad_potential_lead")).FaultFree :=
      faultFree_addState (faultFree_addUser (faultFree_tick hfree) _ _) _ _
    refine ⟨db.tick.freshId, true, _, _, getOrCreateUser_created hfree hrows _,
      getOrCreateUser_found hfree1 hrows1 _, rfl, rfl, ?_, ?_⟩
    · show (List.filter _ ((db.tick.addUser (.str email) (.str n1)).addState db.tick.freshId
        (.str "ad_potential_lead")).users).length = 1
      rw [hrows1]
      rfl
    · intro _
      refine ⟨rfl, ?_⟩
      show (db.sales_pipeline_states ++ [_]).filter
        (fun r : StateRow => r.user_id = db.tick.freshId) = _
      have hold : db.sales_pipeline_states.filter (fun r => r.user_id = db.tick.freshId) = [] := by
        rw [List.filter_eq_nil_iff]
        intro s hs
        simpa using freshId_not_state db.tick s hs
      rw [List.filter_append, hold]
      simp
  | a :: b :: rest =>
    rw [hrows] at hle
    simp at hle

theorem getOrCreateUser_idempotent_witness :
    ∃ id is_new db1 db2,
      getOrCreateUser (.str "a@x.com") (.str "A") Store.empty
        = (.ok { id := id, is_new := is_new }, db1) ∧
      getOrCreateUser (.str "a@x.com") (.str "B") db1 = (.ok { id := id, is_new := false }, db2) ∧
      db2 = db1.tick ∧ db2.writes = db1.writes ∧
      (db2.users.filter (fun r => r.email = .str "a@x.com")).length = 1 ∧
      ((∀ u ∈ Store.empty.users, u.email ≠ .str "a@x.com") →
        is_new = true ∧
        db2.sales_pipeline_states.filter (fun r => r.user_id = id)
          = [{ user_id := id, name := .str "ad_potential_lead" }]) :=
  getOrCreateUser_idempotent Store.empty "a@x.com" "A" "B" (by decide) (by decide)

/-! ## Lead intake: the lead record -/

theorem or_of_absent {fields : JFields} {k : String} (h : fields.lookup k = none) (d : JVal) :
    ((fields.lookup k).getD .undefined).or d = d := by
  rw [h]
  rfl

theorem or_of_nonempty_str {fields : JFields} {k s : String} (h : fields.lookup k = some (.str s))
    (hs : s ≠ "") (d : JVal) : ((fields.lookup k).getD .undefined).or d = .str s := by
  rw [h]
  simp [JVal.or, JVal.truthy, hs]

/-- C6: for a payload object with properties `fields` and resolved account id `userId`,
the lead object exists, has `lead_id`, `field_data` and `date_created` equal to the
payload's `Lead ID`, `Field data` and `Date created` and `user_id` equal to `userId`; each
of the four tracking fields is the sentinel (18 zeros for `ad_id` and `ad_group_id`, 15
zeros for `form_id` and `page_id`) when its key is absent and the payload's value when
that is a non-empty string; and this lead is the object the node body passes to the
store whenever it reaches the upsert. -/
theorem lead_record_defaults (fields : JFields) (userId : JVal) :
    ∃ lead, mkLead (.obj fields) userId = .ok lead ∧
      lead.lead_id = (fields.lookup "Lead ID").getD .undefined ∧
      lead.field_data = (fields.lookup "Field data").getD .undefined ∧
      lead.date_created = (fields.lookup "Date created").getD .undefined ∧
      lead.user_id = userId ∧
      (fields.lookup "Ad ID" = none → lead.ad_id = .str "000000000000000000") ∧
      (fields.lookup "Form ID" = none → lead.form_id = .str "000000000000000") ∧
      (fields.lookup "Page ID" = none → lead.page_id = .str "000000000000000") ∧
      (fields.lookup "Ad group ID" = none → lead.ad_group_id = .str "000000000000000000") ∧
      (∀ s, s ≠ "" → fields.lookup "Ad ID" = some (.str s) → lead.ad_id = .str s) ∧
      (∀ s, s ≠ "" → fields.lookup "Form ID" = some (.str s) → lead.form_id = .str s) ∧
      (∀ s, s ≠ "" → fields.lookup "Page ID" = some (.str s) → lead.page_id = .str s) ∧
      (∀ s, s ≠ "" → fields.lookup "Ad group ID" = some (.str s) → lead.ad_group_id = .str s) ∧
      "000000000000000000".length = 18 ∧ "000000000000000".length = 15 ∧
      ∀ (msg : Msg) (db db1 : Store) (email full_name : JVal) (is_new : Bool),
        msg.payload = .obj fields →
        (msg.payload.get "Field data" >>= fun fd => fd.get "Work email") = .ok email →
        (msg.payload.get "Field data" >>= fun fd => fd.get "Full name") = .ok full_name →
        getOrCreateUser email full_name db = (.ok { id := userId, is_new := is_new }, db1) →
        upsertUserAndLead msg db
          = (routeByNew is_new (upsertAndAssign msg lead db1).1,
              (upsertAndAssign msg lead db1).2) := by
  refine ⟨_, rfl, rfl, rfl, rfl, rfl, fun h => or_of_absent h _, fun h => or_of_absent h _,
    fun h => or_of_absent h _, fun h => or_of_absent h _,
    fun s hs h => or_of_nonempty_str h hs _, fun s hs h => or_of_nonempty_str h hs _,
    fun s hs h => or_of_nonempty_str h hs _, fun s hs h => or_of_nonempty_str h hs _,
    by decide, by decide, ?_⟩
  intro msg db db1 email full_name is_new hp hemail hname huser
  obtain ⟨payload, user_data, user_lead_data⟩ := msg
  simp only at hp
  subst hp
  simp only [upsertUserAndLead, hemail, hname, huser]
  rfl

theorem lead_record_defaults_witness :
    ∃ lead, mkLead (scenarioLead "L1").payload (.num 0) = .ok lead ∧
      lead.lead_id = .str "L1" ∧ lead.user_id = .num 0 ∧
      lead.ad_id = .str "000000000000000000" ∧ lead.form_id = .str "000000000000000" ∧
      lead.page_id = .str "000000000000000" ∧ lead.ad_group_id = .str "000000000000000000" := by
  obtain ⟨lead, hlead, hid, _, _, huser, had, hform, hpage, hgroup, _⟩ :=
    lead_record_defaults
      (JFields.ofList [("Lead ID", .str "L1"),
        ("Field data", JVal.object [("Work email", .str "a@x.com"), ("Full name", .str "A")]),
        ("Date created", .str "2024-01-01")]) (.num 0)
  exact ⟨lead, hlead, hid, huser, had rfl, hform rfl, hpage rfl, hgroup rfl⟩

/-! ## Chat session linking -/

theorem touchChat_user_id (u c t : JVal) (r : ChatRow) : (touchChat u c t r).user_id = r.user_id := by
  unfold touchChat
  split <;> rfl

theorem upsertChatRows_eq (rows : List ChatRow) (u c t : JVal) :
    upsertChatRows rows u c t
      = if rows.any (fun r => r.user_id = u) then rows.map (touchChat u c t)
        else rows ++ [{ user_id := u, chat_id := c, redbot_user_id := .null, updated_at := t }] :=
  rfl

theorem any_user_id_iff (rows : List ChatRow) (u : JVal) :
    rows.any (fun r => r.user_id = u) = true ↔ u ∈ rows.map (·.user_id) := by
  simp only [List.any_eq_true, List.mem_map, decide_eq_true_eq]

theorem upsertChatRows_one (rows : List ChatRow) (u c t : JVal) (h : OneChatPerUser rows) :
    OneChatPerUser (upsertChatRows rows u c t) := by
  unfold OneChatPerUser at h ⊢
  rw [upsertChatRows_eq]
  by_cases hany : rows.any (fun r => r.user_id = u) = true
  · rw [if_pos hany, List.map_map]
    have : ((fun r : ChatRow => r.user_id) ∘ touchChat u c t) = (fun r : ChatRow => r.user_id) := by
      funext r
      exact touchChat_user_id u c t r
    rw [this]
    exact h
  · rw [if_neg hany, List.map_append]
    have hnot : u ∉ rows.map (·.user_id) := fun hm => hany ((any_user_id_iff rows u).mpr hm)
    refine List.Nodup.append h (by simp) ?_
    intro x hx hx2
    simp only [List.map_cons, List.map_nil, List.mem_singleton] at hx2
    subst hx2
    exact hnot hx

theorem filter_touchChat_ne (rows : List ChatRow) (u c t : JVal) :
    (rows.map (touchChat u c t)).filter (fun r => r.user_id ≠ u)
      = rows.filter (fun r => r.user_id ≠ u) := by
  induction rows with
  | nil => rfl
  | cons a rest ih =>
    by_cases ha : a.user_id = u
    · have hb : (touchChat u c t a).user_id = u := by rw [touchChat_user_id, ha]
      simp only [List.map_cons, List.filter_cons, ha, hb, ne_eq, not_true_eq_false,
        decide_False, Bool.false_eq_true, if_false]
      exact ih
    · have hb : touchChat u c t a = a := by simp [touchChat, ha]
      simp only [List.map_cons, List.filter_cons, hb, ha, ne_eq, not_false_eq_true,
        decide_True, if_true]
      rw [← ih]

theorem filter_touchChat_eq (rows : List ChatRow) (u c t : JVal) :
    (rows.map (touchChat u c t)).filter (fun r => r.user_id = u)
      = (rows.filter (fun r => r.user_id = u)).map
          (fun r => { r with chat_id := c, updated_at := t }) := by
  induction rows with
  | nil => rfl
  | cons a rest ih =>
    by_cases ha : a.user_id = u
    · have hb : touchChat u c t a = { a with chat_id := c, updated_at := t } := by
        simp [touchChat, ha]
      simp [List.filter_cons, ha, hb, ih]
    · have hb : touchChat u c t a = a := by simp [touchChat, ha]
      simp [List.filter_cons, ha, hb, ih]

/-- After an upsert for `u` exactly one row has `user_id = u`, and its `chat_id` is the
upserted one. -/
theorem upsertChatRows_filter_eq (rows : List ChatRow) (u c t : JVal) (h : OneChatPerUser rows) :
    ∃ row, (upsertChatRows rows u c t).filter (fun r => r.user_id = u) = [row] ∧
      row.chat_id = c := by
  have hle : (rows.filter (fun r => r.user_id = u)).length ≤ 1 :=
    filter_length_le_one_of_nodup (fun r : ChatRow => r.user_id) u rows h
  rw [upsertChatRows_eq]
  by_cases hany : rows.any (fun r => r.user_id = u) = true
  · rw [if_pos hany, filter_touchChat_eq]
    match hrows : rows.filter (fun r => r.user_id = u) with
    | [r] => exact ⟨{ r with chat_id := c, updated_at := t }, by rw [hrows]; rfl, rfl⟩
    | [] =>
      obtain ⟨x, hx, hxu⟩ := List.any_eq_true.mp hany
      have := List.filter_eq_nil_iff.mp hrows x hx
      exact absurd hxu this
    | a :: b :: rest =>
      rw [hrows] at hle
      simp at hle
  · rw [if_neg hany, List.filter_append]
    have hnil : rows.filter (fun r => r.user_id = u) = [] := by
      rw [List.filter_eq_nil_iff]
      intro x hx hxu
      exact hany (List.any_eq_true.mpr ⟨x, hx, hxu⟩)
    rw [hnil]
    exact ⟨{ user_id := u, chat_id := c, redbot_user_id := .null, updated_at := t },
      by simp, rfl⟩

theorem upsertChatRows_filter_ne (rows : List ChatRow) (u c t : JVal) :
    (upsertChatRows rows u c t).filter (fun r => r.user_id ≠ u)
      = rows.filter (fun r => r.user_id ≠ u) := by
  rw [upsertChatRows_eq]
  by_cases hany : rows.any (fun r => r.user_id = u) = true
  · rw [if_pos hany, filter_touchChat_ne]
  · rw [if_neg hany, List.filter_append]
    simp

theorem storeChatIdUpsert_run {db : Store} (hfree : db.FaultFree) {msg : Msg} {u c : JVal}
    (hu : msg.user_data.get "user_id" = .ok u) (hc : msg.payload.get "chatId" = .ok c)
    (now : JVal) : storeChatIdUpsert now msg db = (.ok (), db.putChat u c now) := by
  simp [storeChatIdUpsert, hu, hc, Store.upsertChat, pendingFault_of_faultFree hfree,
    Store.putChat]

/-- Every call of `storeChatIdUpsert` keeps at most one row per `user_id`, whether or not
it throws. -/
theorem storeChatIdUpsert_keeps_one (now : JVal) (msg : Msg) (db : Store)
    (h : OneChatPerUser db.user_current_chat) :
    OneChatPerUser (storeChatIdUpsert now msg db).2.user_current_chat := by
  unfold storeChatIdUpsert
  cases msg.user_data.get "user_id" with
  | error e => exact h
  | ok u =>
    cases msg.payload.get "chatId" with
    | error e => exact h
    | ok c =>
      cases hf : db.pendingFault with
      | some e => simpa [Store.upsertChat, hf] using h
      | none => simpa [Store.upsertChat, hf] using upsertChatRows_one _ u c now h

/-- C7: on a store with at most one `user_current_chat` row per `user_id` and no failing
store call, for an account id `u` (a value, not `null` or `undefined`: the conflict key of
a row is never null), `storeChatIdUpsert` for `(u, c1)` and then for `(u, c2)` both return, and
leave exactly one row with `user_id = u`, whose `chat_id` is `c2`; the rows of every
other account are unchanged; and every call of `storeChatIdUpsert`, on any message and
any store, keeps at most one row per `user_id`. -/
theorem storeChatIdUpsert_session_exclusive (db : Store) (now1 now2 : JVal) (m1 m2 : Msg)
    (u c1 c2 : JVal) (_hid : u.isNullish = false)
    (hu1 : m1.user_data.get "user_id" = .ok u) (hc1 : m1.payload.get "chatId" = .ok c1)
    (hu2 : m2.user_data.get "user_id" = .ok u) (hc2 : m2.payload.get "chatId" = .ok c2)
    (hone : OneChatPerUser db.user_current_chat) (hfree : db.FaultFree) :
    ∃ db1 db2,
      storeChatIdUpsert now1 m1 db = (.ok (), db1) ∧
      storeChatIdUpsert now2 m2 db1 = (.ok (), db2) ∧
      (∃ row, db2.user_current_chat.filter (fun r => r.user_id = u) = [row] ∧
        row.chat_id = c2) ∧
      db2.user_current_chat.filter (fun r => r.user_id ≠ u)
        = db.user_current_chat.filter (fun r => r.user_id ≠ u) ∧
      ∀ (now : JVal) (msg : Msg) (s : Store), OneChatPerUser s.user_current_chat →
        OneChatPerUser (storeChatIdUpsert now msg s).2.user_current_chat := by
  have hfree1 : (db.putChat u c1 now1).FaultFree := faultFree_tick hfree
  have hone1 : OneChatPerUser (db.putChat u c1 now1).user_current_chat :=
    upsertChatRows_one _ u c1 now1 hone
  refine ⟨db.putChat u c1 now1, (db.putChat u c1 now1).putChat u c2 now2,
    storeChatIdUpsert_run hfree hu1 hc1 now1, storeChatIdUpsert_run hfree1 hu2 hc2 now2,
    upsertChatRows_filter_eq _ u c2 now2 hone1, ?_,
    fun now msg s h => storeChatIdUpsert_keeps_one now msg s h⟩
  show (upsertChatRows (upsertChatRows db.user_current_chat u c1 now1) u c2 now2).filter _ = _
  rw [upsertChatRows_filter_ne, upsertChatRows_filter_ne]

theorem storeChatIdUpsert_session_exclusive_witness :
    ∃ db1 db2,
      storeChatIdUpsert (.num 2) (chatMsg (.num 0) (.str "c1")) storeWithSession = (.ok (), db1) ∧
      storeChatIdUpsert (.num 3) (chatMsg (.num 0) (.str "c2")) db1 = (.ok (), db2) ∧
      (∃ row, db2.user_current_chat.filter (fun r => r.user_id = .num 0) = [row] ∧
        row.chat_id = .str "c2") ∧
      db2.user_current_chat.filter (fun r => r.user_id ≠ .num 0)
        = storeWithSession.user_current_chat.filter (fun r => r.user_id ≠ .num 0) := by
  obtain ⟨db1, db2, h1, h2, hrow, hothers, _⟩ :=
    storeChatIdUpsert_session_exclusive storeWithSession (.num 2) (.num 3)
      (chatMsg (.num 0) (.str "c1")) (chatMsg (.num 0) (.str "c2")) (.num 0) (.str "c1")
      (.str "c2") rfl rfl rfl rfl rfl (by decide) (by decide)
  exact ⟨db1, db2, h1, h2, hrow, hothers⟩

/-! ## Chat identity -/

theorem userDataOf_get_user_id (data : ChatRow) (userId : JVal) :
    (userDataOf data userId).get "user_id" = .ok data.user_id := by
  simp [userDataOf, JVal.object, JFields.ofList, JVal.get, JFields.lookup]

theorem getUserData_of_error {msg : Msg} {db : Store} {userId : JVal} {r : Resp ChatRow}
    {e : PgError} (hget : msg.payload.get "userId" = .ok userId)
    (hr : (db.selectChatByRedbotUser userId).1 = r) (he : r.error = some e) :
    getUserDataFromRedBotUserID msg db = (.ok (msg, false), db.tick) := by
  have h2 : (db.selectChatByRedbotUser userId).2 = db.tick := by
    unfold Store.selectChatByRedbotUser
    split <;> rfl
  subst hr
  simp only [getUserDataFromRedBotUserID, hget]
  rw [he]
  simp only [h2]

theorem getUserData_of_found {msg : Msg} {db : Store} {userId : JVal} {row : ChatRow}
    (hget : msg.payload.get "userId" = .ok userId)
    (hr : (db.selectChatByRedbotUser userId).1 = { data := some row, error := none }) :
    getUserDataFromRedBotUserID msg db
      = (.ok ({ msg with user_data := userDataOf row userId }, true), db.tick) := by
  have h2 : (db.selectChatByRedbotUser userId).2 = db.tick := by
    unfold Store.selectChatByRedbotUser
    split <;> rfl
  simp only [getUserDataFromRedBotUserID, hget]
  rw [hr]
  simp only [h2, userDataOf]

theorem selectChat_found {db : Store} {userId : JVal} {row : ChatRow}
    (hr : (db.selectChatByRedbotUser userId).1 = { data := some row, error := none }) :
    db.pendingFault = none ∧
      db.user_current_chat.filter (fun r => r.redbot_user_id = userId) = [row] := by
  unfold Store.selectChatByRedbotUser at hr
  cases hf : db.pendingFault with
  | some e => simp [hf] at hr
  | none =>
    simp only [hf] at hr
    exact ⟨rfl, single_data_mem (by rw [hr])⟩

theorem selectLeads_found {db : Store} {userId : JVal} {leads : List LeadRow}
    (hr : (db.selectLeadsByUser userId).1 = { data := some leads, error := none }) :
    leads = db.leads.filter (fun r => r.user_id = userId) := by
  unfold Store.selectLeadsByUser at hr
  cases hf : db.pendingFault with
  | some e => simp [hf] at hr
  | none =>
    simp only [hf] at hr
    exact (by simpa using hr : _ = leads).symm

theorem selectLeads_snd (db : Store) (userId : JVal) :
    (db.selectLeadsByUser userId).2 = db.tick := by
  unfold Store.selectLeadsByUser
  split <;> rfl

theorem getLeadData_of_found {msg : Msg} {db : Store} {row : ChatRow} {userId : JVal}
    {leads : List LeadRow}
    (hr : (db.selectLeadsByUser row.user_id).1 = { data := some leads, error := none }) :
    getLeadDataFromUserId { msg with user_data := userDataOf row userId } db
      = (.ok { msg with user_data := userDataOf row userId, user_lead_data := leadsToJVal leads },
          db.tick) := by
  simp only [getLeadDataFromUserId, userDataOf_get_user_id]
  rw [hr]
  simp only [selectLeads_snd]

theorem getLeadData_of_error {msg : Msg} {db : Store} {row : ChatRow} {userId : JVal}
    {r : Resp (List LeadRow)} {e : PgError}
    (hr : (db.selectLeadsByUser row.user_id).1 = r) (he : r.error = some e) :
    getLeadDataFromUserId { msg with user_data := userDataOf row userId } db
      = (.error e.message, db.tick) := by
  subst hr
  simp only [getLeadDataFromUserId, userDataOf_get_user_id]
  rw [he]
  simp only [selectLeads_snd]

theorem selectChat_not_single {db : Store} (hf : db.pendingFault = none) {userId : JVal}
    (hlen : (db.user_current_chat.filter (fun r => r.redbot_user_id = userId)).length ≠ 1) :
    (db.selectChatByRedbotUser userId).1 = { data := none, error := some noRows } := by
  simp only [Store.selectChatByRedbotUser, hf]
  generalize db.user_current_chat.filter (fun r => r.redbot_user_id = userId) = rows at hlen
  rcases rows with _ | ⟨a, _ | ⟨b, rest⟩⟩
  · rfl
  · exact absurd rfl hlen
  · rfl

theorem selectChat_single {db : Store} (hf : db.pendingFault = none) {userId : JVal}
    {row : ChatRow}
    (hrows : db.user_current_chat.filter (fun r => r.redbot_user_id = userId) = [row]) :
    (db.selectChatByRedbotUser userId).1 = { data := some row, error := none } := by
  simp only [Store.selectChatByRedbotUser, hf, hrows, single]

theorem selectLeads_of_no_error {db : Store} {userId : JVal}
    (h : (db.selectLeadsByUser userId).1.error = none) :
    (db.selectLeadsByUser userId).1
      = { data := some (db.leads.filter (fun r => r.user_id = userId)), error := none } := by
  unfold Store.selectLeadsByUser at h ⊢
  cases hf : db.pendingFault with
  | some e => simp [hf] at h
  | none => rfl

/-- C8 (as stated, refuted): two `user_current_chat` rows carry the messaging user `rb7`
(`redbot_user_id` is no unique key), no store call fails, and the lead fetch of either
account would succeed; `.single()` reports "no rows" and the node returns the unchanged
message in the second slot, the slot of unknown users, with no `user_data`. -/
theorem shared_messaging_user_leaves_on_second_slot :
    storeWithTwoSessions.user_current_chat.filter (fun r => r.redbot_user_id = .str "rb7")
      = [{ user_id := .num 7, chat_id := .str "c0", redbot_user_id := .str "rb7",
           updated_at := .num 1 },
         { user_id := .num 8, chat_id := .str "c9", redbot_user_id := .str "rb7",
           updated_at := .num 2 }] ∧
    storeWithTwoSessions.FaultFree ∧
    (storeWithTwoSessions.tick.selectLeadsByUser (.num 7)).1.error = none ∧
    (storeWithTwoSessions.tick.selectLeadsByUser (.num 8)).1.error = none ∧
    getUserDataNode (Msg.ofPayload (JVal.object [("userId", .str "rb7")])) storeWithTwoSessions
      = (.emitted none (some (Msg.ofPayload (JVal.object [("userId", .str "rb7")]))),
          storeWithTwoSessions) := by
  refine ⟨rfl, by decide, rfl, rfl, rfl⟩

/-- C8 (amended): for a message with user id `payload.userId`: when the reverse lookup
reports "no rows", as it does on a lookup that does not fail when no `user_current_chat`
row, or more than one, carries that `redbot_user_id`, `getUserDataFromRedBotUserID`
returns `[msg, {emilia_user: false}]` without throwing and the node returns the unchanged
message in the second slot only; when the lookup does not fail, exactly one row carries
that `redbot_user_id` and the lead fetch succeeds, the node returns the message in the
first slot only, with `user_data` built from that row and the user id, and
`user_lead_data` all the `leads` rows of that account. -/
theorem getUserDataNode_unknown_and_known (msg : Msg) (db : Store) (userId : JVal)
    (hget : msg.payload.get "userId" = .ok userId) :
    (db.pendingFault = none →
      (db.user_current_chat.filter (fun r => r.redbot_user_id = userId)).length ≠ 1 →
      (db.selectChatByRedbotUser userId).1 = { data := none, error := some noRows } ∧
      getUserDataFromRedBotUserID msg db = (.ok (msg, false), db.tick) ∧
      getUserDataNode msg db = (.emitted none (some msg), db.tick)) ∧
    (∀ e, (db.selectChatByRedbotUser userId).1 = { data := none, error := some e } →
      e.code = "PGRST116" →
      getUserDataFromRedBotUserID msg db = (.ok (msg, false), db.tick) ∧
      getUserDataNode msg db = (.emitted none (some msg), db.tick)) ∧
    (∀ row, db.pendingFault = none →
      db.user_current_chat.filter (fun r => r.redbot_user_id = userId) = [row] →
      (db.tick.selectLeadsByUser row.user_id).1.error = none →
      row ∈ db.user_current_chat ∧ row.redbot_user_id = userId ∧
      getUserDataNode msg db
        = (.emitted (some { msg with
              user_data := JVal.object [("flowise_chat_id", row.chat_id),
                ("user_id", row.user_id), ("redbot_user_id", userId)]
              user_lead_data :=
                leadsToJVal (db.leads.filter (fun r => r.user_id = row.user_id)) }) none,
            db.tick.tick)) := by
  refine ⟨?_, ?_, ?_⟩
  · intro hf hlen
    have hr := selectChat_not_single hf hlen
    have h := getUserData_of_error hget hr rfl
    exact ⟨hr, h, by simp [getUserDataNode, h]⟩
  · intro e hr _
    have h := getUserData_of_error hget hr rfl
    exact ⟨h, by simp [getUserDataNode, h]⟩
  · intro row hf hrows herr
    have hr := selectChat_single hf hrows
    have hl : (db.tick.selectLeadsByUser row.user_id).1
        = { data := some (db.leads.filter (fun r => r.user_id = row.user_id)), error := none } :=
      selectLeads_of_no_error herr
    have hmem : row ∈ db.user_current_chat.filter (fun r => r.redbot_user_id = userId) := by
      rw [hrows]; simp
    rw [List.mem_filter] at hmem
    refine ⟨hmem.1, by simpa using hmem.2, ?_⟩
    simp only [getUserDataNode, getUserData_of_found hget hr, if_true,
      getLeadData_of_found hl]
    rfl

theorem getUserDataNode_unknown_and_known_witness :
    getUserDataNode (Msg.ofPayload (JVal.object [("userId", .str "nonexistent")]))
        storeWithSession
      = (.emitted none (some (Msg.ofPayload (JVal.object [("userId", .str "nonexistent")]))),
          storeWithSession) ∧
    getUserDataNode (Msg.ofPayload (JVal.object [("userId", .str "rb7")])) storeWithSession
      = (.emitted (some {
            payload := JVal.object [("userId", .str "rb7")]
            user_data := JVal.object [("flowise_chat_id", .str "c0"), ("user_id", .num 7),
              ("redbot_user_id", .str "rb7")]
            user_lead_data :=
              leadsToJVal [{ scenarioRow "L7" with user_id := .num 7 }] }) none,
          storeWithSession) :=
  ⟨((getUserDataNode_unknown_and_known
        (Msg.ofPayload (JVal.object [("userId", .str "nonexistent")])) storeWithSession
        (.str "nonexistent") rfl).1 rfl (by decide)).2.2,
    ((getUserDataNode_unknown_and_known
        (Msg.ofPayload (JVal.object [("userId", .str "rb7")])) storeWithSession
        (.str "rb7") rfl).2.2
      { user_id := .num 7, chat_id := .str "c0", redbot_user_id := .str "rb7",
        updated_at := .num 1 } rfl rfl rfl).2.2⟩

/-- C9 (as stated, refuted): the messaging user `rb7` has a session row, the lead fetch
fails with a transport error, and the node returns the message, with the error payload,
in the second slot, the slot of unknown users; the first slot is `null`. -/
theorem enrichment_failure_leaves_on_second_slot :
    (getUserDataFromRedBotUserID (Msg.ofPayload (JVal.object [("userId", .str "rb7")]))
        { storeWithSession with faults := [none, some connectionFailure] }).1
      = .ok ({ payload := JVal.object [("userId", .str "rb7")]
               user_data := JVal.object [("flowise_chat_id", .str "c0"),
                 ("user_id", .num 7), ("redbot_user_id", .str "rb7")]
               user_lead_data := .undefined }, true) ∧
    (getUserDataNode (Msg.ofPayload (JVal.object [("userId", .str "rb7")]))
        { storeWithSession with faults := [none, some connectionFailure] }).1
      = .emitted none (some {
          payload := errorPayload "connection failure"
          user_data := JVal.object [("flowise_chat_id", .str "c0"), ("user_id", .num 7),
            ("redbot_user_id", .str "rb7")]
          user_lead_data := .undefined }) := by
  constructor <;> rfl

/-- C9 (amended): when the reverse lookup finds a session row and the lead fetch fails
with a store error, the node returns the message in the second slot only (the slot it
also uses for unknown users), with the payload replaced by `{ error: message }`, with
`user_data` set from the session row and `user_lead_data` untouched. -/
theorem getUserDataNode_enrichment_failure (msg : Msg) (db : Store) (userId : JVal)
    (row : ChatRow) (e : PgError)
    (hget : msg.payload.get "userId" = .ok userId)
    (hrow : (db.selectChatByRedbotUser userId).1 = { data := some row, error := none })
    (hfail : (db.tick.selectLeadsByUser row.user_id).1 = { data := none, error := some e }) :
    getUserDataNode msg db
      = (.emitted none (some { msg with
            payload := errorPayload e.message
            user_data := JVal.object [("flowise_chat_id", row.chat_id),
              ("user_id", row.user_id), ("redbot_user_id", userId)] }), db.tick.tick) := by
  simp only [getUserDataNode, getUserData_of_found hget hrow, if_true,
    getLeadData_of_error hfail rfl]
  rfl

theorem getUserDataNode_enrichment_failure_witness :
    getUserDataNode (Msg.ofPayload (JVal.object [("userId", .str "rb7")]))
        { storeWithSession with faults := [none, some connectionFailure] }
      = (.emitted none (some {
            payload := errorPayload "connection failure"
            user_data := JVal.object [("flowise_chat_id", .str "c0"), ("user_id", .num 7),
              ("redbot_user_id", .str "rb7")]
            user_lead_data := .undefined }), storeWithSession) :=
  getUserDataNode_enrichment_failure (Msg.ofPayload (JVal.object [("userId", .str "rb7")]))
    { storeWithSession with faults := [none, some connectionFailure] } (.str "rb7")
    { user_id := .num 7, chat_id := .str "c0", redbot_user_id := .str "rb7",
      updated_at := .num 1 } connectionFailure rfl rfl rfl

/-- C10 (the code at the failing input): the messaging user `rb7` has a session row; with
the lookup failing on a transport error (code `08006`, not `PGRST116`)
`getUserDataFromRedBotUserID` returns `[msg, {emilia_user: false}]`, the very result it
returns for a user that has no row, and throws nothing. -/
theorem getUserData_transport_failure_reads_as_not_found :
    connectionFailure.code ≠ "PGRST116" ∧
    (getUserDataFromRedBotUserID (Msg.ofPayload (JVal.object [("userId", .str "rb7")]))
        { storeWithSession with faults := [some connectionFailure] }).1
      = .ok (Msg.ofPayload (JVal.object [("userId", .str "rb7")]), false) ∧
    (getUserDataFromRedBotUserID (Msg.ofPayload (JVal.object [("userId", .str "rb7")]))
        Store.empty).1
      = .ok (Msg.ofPayload (JVal.object [("userId", .str "rb7")]), false) ∧
    (Store.empty.selectChatByRedbotUser (.str "rb7")).1.error = some noRows := by
  refine ⟨by decide, rfl, rfl, rfl⟩

end Emilia
